import Mathlib

/-
Shallow embedding of the protocol-unification core of the rmqtt broker:
  src/rmqtt/src/broker/types.rs  (QoS arbitration, SubscribeAck merging,
                                  Subscribe/Unsubscribe adjustment, Publish
                                  packet ids, Identity and its JSON projection)
  src/rmqtt/src/plugin.rs        (plugin lifecycle Manager)

Machine integers are modelled as Nat (no arithmetic is performed on them by
the embedded operations, so no overflow can arise); Rust `Vec` is `List`;
`ByteString`/`String` and the structured ntex `Topic` are modelled by their
string rendering (`Topic::to_string`), which is all the embedded operations
inspect.  Operations that can panic (out-of-bounds `Vec::remove`) return
`Option`, with `none` marking the panic.  Fallible operations that mutate
`&mut self` are modelled as returning the `Result` together with the
post-state.
-/

namespace Rmqtt

/-- QoS from `ntex_mqtt::types::QoS` (AtMostOnce=0, AtLeastOnce=1, ExactlyOnce=2). -/
inductive QoS
  | AtMostOnce
  | AtLeastOnce
  | ExactlyOnce
deriving DecidableEq, Repr

/-- Numeric value of a QoS level, `QoSEx::value` in types.rs. -/
def QoS.value : QoS → Nat
  | .AtMostOnce => 0
  | .AtLeastOnce => 1
  | .ExactlyOnce => 2

/-- The numerically smaller of two QoS levels, `QoSEx::less_value` in types.rs. -/
def QoS.less_value (a : QoS) (qos : QoS) : QoS :=
  if a.value < qos.value then a else qos

/-- `ntex_mqtt::v3::codec::SubscribeReturnCode`. -/
inductive SubscribeReturnCodeV3
  | Success (qos : QoS)
  | Failure
deriving DecidableEq, Repr

/-- `ntex_mqtt::v5::codec::SubscribeAckReason` (the 12 reason codes). -/
inductive SubscribeAckReason
  | GrantedQos0
  | GrantedQos1
  | GrantedQos2
  | UnspecifiedError
  | ImplementationSpecificError
  | NotAuthorized
  | TopicFilterInvalid
  | PacketIdentifierInUse
  | QuotaExceeded
  | SharedSubscriptionNotSupported
  | SubscriptionIdentifiersNotSupported
  | WildcardSubscriptionsNotSupported
deriving DecidableEq, Repr

/-- `ntex_mqtt::v5::codec::SubscribeAck`: packet id, per-filter status list,
user properties and optional reason string (the fields `merge_from` touches). -/
structure SubscribeAckV5 where
  packet_id : Nat
  status : List SubscribeAckReason
  properties : List (String × String)
  reason_string : Option String
deriving DecidableEq, Repr

/-- `SubscribeAck` from types.rs: tagged union over the protocol version. -/
inductive SubscribeAck
  | V3 (codes : List SubscribeReturnCodeV3)
  | V5 (acks : SubscribeAckV5)
deriving DecidableEq, Repr

/-- `SubscribeAck::v3_merge` from types.rs, arm for arm. -/
def SubscribeAck.v3_merge (code : SubscribeReturnCodeV3) (merged : SubscribeReturnCodeV3) :
    SubscribeReturnCodeV3 :=
  match code, merged with
  | _, .Failure => .Failure
  | .Failure, _ => .Failure
  | .Success qos1, .Success qos2 => .Success (qos1.less_value qos2)

/-- The `matches!(_, GrantedQos0 | GrantedQos1 | GrantedQos2)` test used by
`SubscribeAck::v5_merge`. -/
def SubscribeAckReason.is_granted : SubscribeAckReason → Bool
  | .GrantedQos0 => true
  | .GrantedQos1 => true
  | .GrantedQos2 => true
  | _ => false

/-- `SubscribeAck::v5_merge` from types.rs: two early returns for values outside
the granted-QoS set, then the ordered match over granted pairs. -/
def SubscribeAck.v5_merge (status : SubscribeAckReason) (merged : SubscribeAckReason) :
    SubscribeAckReason :=
  if ¬ status.is_granted then merged
  else if ¬ merged.is_granted then merged
  else
    match status, merged with
    | _, .GrantedQos0 => .GrantedQos0
    | .GrantedQos0, _ => .GrantedQos0
    | _, .GrantedQos1 => .GrantedQos1
    | .GrantedQos1, _ => .GrantedQos1
    | .GrantedQos2, .GrantedQos2 => .GrantedQos2
    | _, _ => status

/-- Rust `Vec::remove(i)`: removes and returns the element at index `i`,
shifting later elements left; panics (`none`) when `i` is out of bounds. -/
def vec_remove {α : Type} (l : List α) (i : Nat) : Option (α × List α) :=
  match l.get? i with
  | none => none
  | some x => some (x, l.eraseIdx i)

/-- The V3 merge loop of `SubscribeAck::merge_from`:
`for (i, code) in codes.iter_mut().enumerate() { *code = v3_merge(code, merged_codes.remove(i)) }`.
The index `i` advances while `merged` shrinks, exactly as in the source. -/
def v3_merge_loop : List SubscribeReturnCodeV3 → Nat → List SubscribeReturnCodeV3 →
    Option (List SubscribeReturnCodeV3)
  | [], _, _ => some []
  | c :: cs, i, merged =>
    match vec_remove merged i with
    | none => none
    | some (x, merged1) =>
      match v3_merge_loop cs (i + 1) merged1 with
      | none => none
      | some rest => some (SubscribeAck.v3_merge c x :: rest)

/-- The V5 status merge loop of `SubscribeAck::merge_from`, same shape as the
V3 loop but over `SubscribeAckReason` with `v5_merge`. -/
def v5_merge_loop : List SubscribeAckReason → Nat → List SubscribeAckReason →
    Option (List SubscribeAckReason)
  | [], _, _ => some []
  | c :: cs, i, merged =>
    match vec_remove merged i with
    | none => none
    | some (x, merged1) =>
      match v5_merge_loop cs (i + 1) merged1 with
      | none => none
      | some rest => some (SubscribeAck.v5_merge c x :: rest)

/-- `SubscribeAck::merge_from` from types.rs.  The Rust method takes `&mut self`
and returns `()`; here it returns the post-state, with `none` marking a panic.
A length mismatch or a variant mismatch only logs and returns early, leaving
`self` unchanged. -/
def SubscribeAck.merge_from : SubscribeAck → SubscribeAck → Option SubscribeAck
  | SubscribeAck.V3 codes, SubscribeAck.V3 merged_codes =>
    if codes.length ≠ merged_codes.length then some (SubscribeAck.V3 codes)
    else
      match v3_merge_loop codes 0 merged_codes with
      | none => none
      | some codes1 => some (SubscribeAck.V3 codes1)
  | SubscribeAck.V5 acks, SubscribeAck.V5 merged_acks =>
    if acks.status.length ≠ merged_acks.status.length then some (SubscribeAck.V5 acks)
    else
      let rs : Option String :=
        match acks.reason_string, merged_acks.reason_string with
        | some reason1, some reason2 => some (reason1 ++ ", " ++ reason2)
        | none, some reason => some reason
        | some reason, none => some reason
        | none, none => none
      let props := acks.properties ++ merged_acks.properties
      match v5_merge_loop acks.status 0 merged_acks.status with
      | none => none
      | some status1 =>
        some (SubscribeAck.V5
          { acks with reason_string := rs, properties := props, status := status1 })
  | SubscribeAck.V3 codes, SubscribeAck.V5 _ => some (SubscribeAck.V3 codes)
  | SubscribeAck.V5 acks, SubscribeAck.V3 _ => some (SubscribeAck.V5 acks)

/-- `MqttError` as used by types.rs/plugin.rs: `ServiceUnavailable` (the
variant the spec calls `FilterCountMismatch`) and the generic string error
produced by `MqttError::from(String)`. -/
inductive MqttError
  | ServiceUnavailable
  | Error (msg : String)
deriving DecidableEq, Repr

/-- `ntex_mqtt::v5::codec::SubscriptionOptions`. -/
structure SubscriptionOptions where
  qos : QoS
  no_local : Bool
  retain_as_published : Bool
  retain_handling : Nat
deriving DecidableEq, Repr

/-- `ntex_mqtt::v5::codec::Subscribe`: packet id and (topic filter, options) list. -/
structure SubscribeV5 where
  packet_id : Nat
  topic_filters : List (String × SubscriptionOptions)
deriving DecidableEq, Repr

/-- `Subscribe` from types.rs: V3 list of (topic filter, QoS) pairs or the
native V5 structure. -/
inductive Subscribe
  | V3 (subs : List (String × QoS))
  | V5 (subs : SubscribeV5)
deriving DecidableEq, Repr

/-- `Subscribe::len` from types.rs. -/
def Subscribe.len : Subscribe → Nat
  | .V3 subs => subs.length
  | .V5 subs => subs.topic_filters.length

/-- The V3 replacement loop of `Subscribe::adjust_topic_filters`:
`*tf = topic_filters.remove(0)` for each entry in order, keeping each QoS.
`none` marks the `Vec::remove(0)`-on-empty panic (unreachable under the
length guard). -/
def subscribe_adjust_loop_v3 : List (String × QoS) → List String →
    Option (List (String × QoS))
  | [], _ => some []
  | (_, q) :: rest, tf :: tfs =>
    match subscribe_adjust_loop_v3 rest tfs with
    | none => none
    | some r => some ((tf, q) :: r)
  | _ :: _, [] => none

/-- The V5 replacement loop of `Subscribe::adjust_topic_filters`, keeping each
entry's `SubscriptionOptions`. -/
def subscribe_adjust_loop_v5 : List (String × SubscriptionOptions) → List String →
    Option (List (String × SubscriptionOptions))
  | [], _ => some []
  | (_, o) :: rest, tf :: tfs =>
    match subscribe_adjust_loop_v5 rest tfs with
    | none => none
    | some r => some ((tf, o) :: r)
  | _ :: _, [] => none

/-- `Subscribe::adjust_topic_filters` from types.rs: on a length mismatch it
logs and returns `Err(MqttError::ServiceUnavailable)` before touching any
entry; otherwise it replaces every topic filter in order. -/
def Subscribe.adjust_topic_filters (s : Subscribe) (topic_filters : List String) :
    Option (Except MqttError Unit × Subscribe) :=
  if s.len ≠ topic_filters.length then
    some (Except.error MqttError.ServiceUnavailable, s)
  else
    match s with
    | .V3 subs =>
      match subscribe_adjust_loop_v3 subs topic_filters with
      | none => none
      | some subs1 => some (Except.ok (), Subscribe.V3 subs1)
    | .V5 subs =>
      match subscribe_adjust_loop_v5 subs.topic_filters topic_filters with
      | none => none
      | some tfs1 => some (Except.ok (), Subscribe.V5 { subs with topic_filters := tfs1 })

/-- `ntex_mqtt::v5::codec::Unsubscribe`: packet id, user properties and topic
filter list. -/
structure UnsubscribeV5 where
  packet_id : Nat
  user_properties : List (String × String)
  topic_filters : List String
deriving DecidableEq, Repr

/-- `Unsubscribe` from types.rs. -/
inductive Unsubscribe
  | V3 (unsubs : List String)
  | V5 (unsubs : UnsubscribeV5)
deriving DecidableEq, Repr

/-- `Unsubscribe::len` from types.rs. -/
def Unsubscribe.len : Unsubscribe → Nat
  | .V3 unsubs => unsubs.length
  | .V5 unsubs => unsubs.topic_filters.length

/-- The replacement loop shared by both `Unsubscribe::adjust_topic_filters`
arms: `*tf = topic_filters.remove(0)` for each entry in order. -/
def unsubscribe_adjust_loop : List String → List String → Option (List String)
  | [], _ => some []
  | _ :: rest, tf :: tfs =>
    match unsubscribe_adjust_loop rest tfs with
    | none => none
    | some r => some (tf :: r)
  | _ :: _, [] => none

/-- `Unsubscribe::adjust_topic_filters` from types.rs: length mismatch is a
hard error before any mutation, otherwise every filter is replaced in order. -/
def Unsubscribe.adjust_topic_filters (u : Unsubscribe) (topic_filters : List String) :
    Option (Except MqttError Unit × Unsubscribe) :=
  if u.len ≠ topic_filters.length then
    some (Except.error MqttError.ServiceUnavailable, u)
  else
    match u with
    | .V3 unsubs =>
      match unsubscribe_adjust_loop unsubs topic_filters with
      | none => none
      | some unsubs1 => some (Except.ok (), Unsubscribe.V3 unsubs1)
    | .V5 unsubs =>
      match unsubscribe_adjust_loop unsubs.topic_filters topic_filters with
      | none => none
      | some tfs1 => some (Except.ok (), Unsubscribe.V5 { unsubs with topic_filters := tfs1 })

/-- `NonZeroU16::new`: `some n` for `1 ≤ n`, `none` for `0` (the stored
`Option<NonZeroU16>` is modelled as `Option Nat` holding the `get()` value). -/
def nonzero_u16_new (n : Nat) : Option Nat :=
  if n = 0 then none else some n

/-- `ntex_mqtt::v3::codec::Publish` (the fields of the wire packet). -/
structure PacketPublishV3 where
  dup : Bool
  retain : Bool
  qos : QoS
  topic : String
  packet_id : Option Nat
  payload : String
deriving DecidableEq, Repr

/-- `PublishV3` from types.rs: wire packet plus parsed topic, query and
creation timestamp. -/
structure PublishV3 where
  packet : PacketPublishV3
  topic : String
  query : Option String
  create_time : Int
deriving DecidableEq, Repr

/-- `ntex_mqtt::v5::codec::Publish` (the fields the embedded accessors touch). -/
structure PacketPublishV5 where
  dup : Bool
  retain : Bool
  qos : QoS
  topic : String
  packet_id : Option Nat
  payload : String
deriving DecidableEq, Repr

/-- `PublishV5` from types.rs. -/
structure PublishV5 where
  publish : PacketPublishV5
  topic : String
  create_time : Int
deriving DecidableEq, Repr

/-- `Publish` from types.rs: tagged union over the protocol version. -/
inductive Publish
  | V3 (p : PublishV3)
  | V5 (p : PublishV5)
deriving DecidableEq, Repr

/-- `Publish::packet_id` from types.rs (`packet_id.map(|id| id.get())`). -/
def Publish.packet_id : Publish → Option Nat
  | .V3 p => p.packet.packet_id
  | .V5 p => p.publish.packet_id

/-- `Publish::packet_id_is_none` from types.rs. -/
def Publish.packet_id_is_none : Publish → Bool
  | .V3 p => p.packet.packet_id.isNone
  | .V5 p => p.publish.packet_id.isNone

/-- `Publish::set_packet_id` from types.rs: stores `NonZeroU16::new(packet_id)`. -/
def Publish.set_packet_id (p : Publish) (packet_id : Nat) : Publish :=
  match p with
  | .V3 p3 => .V3 { p3 with packet := { p3.packet with packet_id := nonzero_u16_new packet_id } }
  | .V5 p5 => .V5 { p5 with publish := { p5.publish with packet_id := nonzero_u16_new packet_id } }

/-- JSON values, enough to state the `json!` projections of types.rs. -/
inductive JsonValue
  | str (s : String)
  | num (n : Nat)
  | bool (b : Bool)
  | null
deriving DecidableEq, Repr

/-- `Id`/`_Id` from types.rs: the derived display string `id` plus the five
source fields.  `Arc` sharing is immaterial to the embedded operations. -/
structure Id where
  id : String
  node_id : Nat
  local_addr : String
  remote_addr : String
  client_id : String
  username : String
deriving DecidableEq, Repr

/-- `Id::new` from types.rs: derives
`format!("{}@{}/{}/{}", node_id, local_addr, remote_addr, client_id)` once at
construction and defaults a missing username to `"undefined"`. -/
def Id.new (node_id : Nat) (local_addr : String) (remote_addr : String)
    (client_id : String) (username : Option String) : Id :=
  { id := toString node_id ++ "@" ++ local_addr ++ "/" ++ remote_addr ++ "/" ++ client_id
    node_id := node_id
    local_addr := local_addr
    remote_addr := remote_addr
    client_id := client_id
    username := username.getD "undefined" }

/-- `PartialEq for Id` from types.rs: `self.id == other.id`. -/
def Id.eq (a : Id) (other : Id) : Bool :=
  a.id == other.id

/-- The data `Hash for Id` feeds the hasher: `self.id` (so equal inputs give
equal hashes under every hasher). -/
def Id.hash_input (a : Id) : String :=
  a.id

/-- `Id::node` from types.rs: `format!("{}/{}", self.node_id, self.local_addr)`. -/
def Id.node (a : Id) : String :=
  toString a.node_id ++ "/" ++ a.local_addr

/-- `Id::as_str`/`ToString for Id`: the derived display string. -/
def Id.as_str (a : Id) : String :=
  a.id

/-- `Id::to_json` from types.rs: the four-key `json!` object. -/
def Id.to_json (a : Id) : List (String × JsonValue) :=
  [("node", JsonValue.str a.node),
   ("ipaddress", JsonValue.str a.remote_addr),
   ("clientid", JsonValue.str a.client_id),
   ("username", JsonValue.str a.username)]

/-- Modelled from the spec (claim C3's amendment): the V5 status merge rule as
amended — whenever either side is outside the granted-QoS set the second
argument (`merged`) is returned; among two granted values Qos0 dominates, then
Qos1, then Qos2.  To be compared with `SubscribeAck.v5_merge` above. -/
def v5_merge_amended (status : SubscribeAckReason) (merged : SubscribeAckReason) :
    SubscribeAckReason :=
  if status.is_granted && merged.is_granted then
    if status = .GrantedQos0 ∨ merged = .GrantedQos0 then .GrantedQos0
    else if status = .GrantedQos1 ∨ merged = .GrantedQos1 then .GrantedQos1
    else .GrantedQos2
  else merged

/-- Behaviour of one `dyn Plugin` (src/rmqtt/src/plugin.rs trait `Plugin`):
its name and the outcome of each lifecycle call the Manager may make
(`none`/`Except.ok` = the call succeeds, an error value = the call fails). -/
structure Plugin where
  name : String
  init_res : Option MqttError
  start_res : Option MqttError
  stop_res : Except MqttError Bool

/-- `Entry` from plugin.rs: the two lifecycle flags and the plugin handle. -/
structure Entry where
  inited : Bool
  active : Bool
  plugin : Plugin

/-- Lookup in the name-keyed plugin map (`DashMap::get`). -/
def mlookup {β : Type} : List (String × β) → String → Option β
  | [], _ => none
  | (k1, v1) :: rest, k => if k1 = k then some v1 else mlookup rest k

/-- Removal from the name-keyed plugin map (`DashMap::remove`). -/
def merase {β : Type} : List (String × β) → String → List (String × β)
  | [], _ => []
  | (k1, v1) :: rest, k => if k1 = k then rest else (k1, v1) :: merase rest k

/-- Insert-or-replace in the name-keyed plugin map (`DashMap::insert`, and
in-place mutation through a `RefMut`). -/
def minsert {β : Type} : List (String × β) → String → β → List (String × β)
  | [], k, v => [(k, v)]
  | (k1, v1) :: rest, k, v =>
    if k1 = k then (k, v) :: rest else (k1, v1) :: minsert rest k v

/-- `Manager` from plugin.rs: the name-keyed plugin directory. -/
structure Manager where
  plugins : List (String × Entry)

/-- The tail of `Manager::register` after the old entry has been removed:
with `default_startup` the new plugin is inited and started (failures
propagate with the old entry already gone), then the entry is inserted with
`inited = active = default_startup`. -/
def Manager.register_install (rest : List (String × Entry)) (p : Plugin)
    (default_startup : Bool) : Except MqttError Unit × Manager :=
  if default_startup then
    match p.init_res with
    | some e => (Except.error e, ⟨rest⟩)
    | none =>
      match p.start_res with
      | some e => (Except.error e, ⟨rest⟩)
      | none => (Except.ok (), ⟨minsert rest p.name ⟨true, true, p⟩⟩)
  else (Except.ok (), ⟨minsert rest p.name ⟨false, false, p⟩⟩)

/-- `Manager::register` from plugin.rs: an existing same-named entry is
removed first and, if active, stopped (a stop failure propagates with the
entry already removed); then the replacement is installed. -/
def Manager.register (m : Manager) (p : Plugin) (default_startup : Bool) :
    Except MqttError Unit × Manager :=
  match mlookup m.plugins p.name with
  | some entry =>
    if entry.active then
      match entry.plugin.stop_res with
      | Except.error e => (Except.error e, ⟨merase m.plugins p.name⟩)
      | Except.ok _ => Manager.register_install (merase m.plugins p.name) p default_startup
    else Manager.register_install (merase m.plugins p.name) p default_startup
  | none => Manager.register_install (merase m.plugins p.name) p default_startup

/-- The second half of `Manager::start`: `if !entry.active { start()?;
entry.active = true }`.  Note the source never sets `entry.inited`. -/
def Manager.start_active_phase (m : Manager) (name : String) (e : Entry) :
    Except MqttError Unit × Manager :=
  if e.active then (Except.ok (), m)
  else
    match e.plugin.start_res with
    | some err => (Except.error err, m)
    | none => (Except.ok (), ⟨minsert m.plugins name { e with active := true }⟩)

/-- `Manager::start` from plugin.rs: missing name is an error; an uninited
entry is inited first (failure propagates, nothing mutated); an inactive
entry is started and marked active; an active entry is a no-op success. -/
def Manager.start (m : Manager) (name : String) : Except MqttError Unit × Manager :=
  match mlookup m.plugins name with
  | none => (Except.error (MqttError.Error (name ++ " the plug-in does not exist")), m)
  | some e =>
    if e.inited then m.start_active_phase name e
    else
      match e.plugin.init_res with
      | some err => (Except.error err, m)
      | none => m.start_active_phase name e

/-- `Manager::stop` from plugin.rs: missing name and inactive entry are
errors; otherwise the plugin is stopped and `active` set to `!stopped`. -/
def Manager.stop (m : Manager) (name : String) : Except MqttError Bool × Manager :=
  match mlookup m.plugins name with
  | none => (Except.error (MqttError.Error (name ++ " the plug-in does not exist")), m)
  | some e =>
    if e.active then
      match e.plugin.stop_res with
      | Except.error err => (Except.error err, m)
      | Except.ok stopped =>
        (Except.ok stopped, ⟨minsert m.plugins name { e with active := !stopped }⟩)
    else (Except.error (MqttError.Error (name ++ " the plug-in is not started")), m)

/-- `Manager::is_active` from plugin.rs: a non-failing boolean probe. -/
def Manager.is_active (m : Manager) (name : String) : Bool :=
  match mlookup m.plugins name with
  | some e => e.active
  | none => false

/-- Looking a key up right after inserting it with `minsert` yields the
inserted value. -/
theorem mlookup_minsert_self {β : Type} (l : List (String × β)) (k : String) (v : β) :
    mlookup (minsert l k v) k = some v := by
  induction l with
  | nil => simp [minsert, mlookup]
  | cons head rest ih =>
    obtain ⟨k1, v1⟩ := head
    by_cases h : k1 = k
    · simp [minsert, mlookup, h]
    · simp [minsert, mlookup, h, ih]

/-- When `register` with `default_startup = false` succeeds, the new manager
state is the old map with the name rebound to an entry with both lifecycle
flags cleared. -/
theorem register_false_ok_state (m : Manager) (p : Plugin)
    (h : (Manager.register m p false).1 = Except.ok ()) :
    (Manager.register m p false).2
      = ⟨minsert (merase m.plugins p.name) p.name ⟨false, false, p⟩⟩ := by
  unfold Manager.register Manager.register_install at *
  cases hl : mlookup m.plugins p.name with
  | none => simp [hl]
  | some entry =>
    by_cases ha : entry.active
    · cases hs : entry.plugin.stop_res with
      | error e =>
        rw [hl] at h
        simp [ha, hs] at h
      | ok b => simp [hl, ha, hs]
    · simp [hl, ha]

/-- Claim C1: refuted as stated — the claim says `merge_from` on two same-variant
acks with equal-length code lists completes without any failure or panic for
every length including two or more; on two V3 acks of length 2 the loop calls
`Vec::remove(1)` on a one-element vector, an out-of-bounds panic (`none`). -/
theorem c1_merge_from_panics_on_length_two :
    SubscribeAck.merge_from
      (SubscribeAck.V3 [SubscribeReturnCodeV3.Success QoS.AtMostOnce,
                        SubscribeReturnCodeV3.Success QoS.AtMostOnce])
      (SubscribeAck.V3 [SubscribeReturnCodeV3.Success QoS.AtMostOnce,
                        SubscribeReturnCodeV3.Success QoS.AtMostOnce])
      = none := rfl

/-- Claim C2: refuted as stated — the claim says that after `merge_from` every
position of the V3 code list holds the Failure-absorbing min of the two
original codes at that position; on equal-length lists of length 2 the merge
loop instead panics out of bounds (`none`), so no position-wise result exists. -/
theorem c2_merge_from_length_two_no_elementwise_result :
    SubscribeAck.merge_from
      (SubscribeAck.V3 [SubscribeReturnCodeV3.Success QoS.AtLeastOnce,
                        SubscribeReturnCodeV3.Failure])
      (SubscribeAck.V3 [SubscribeReturnCodeV3.Failure,
                        SubscribeReturnCodeV3.Success QoS.AtMostOnce])
      = none := rfl

/-- Claim C3, counterexample: the claim says a non-granted value wins
regardless of position, but when the first argument is the non-granted value
`UnspecifiedError`, `v5_merge` returns the second argument `GrantedQos1`, not
the non-granted value. -/
theorem c3_nongranted_does_not_win :
    SubscribeAck.v5_merge SubscribeAckReason.UnspecifiedError SubscribeAckReason.GrantedQos1
        = SubscribeAckReason.GrantedQos1
      ∧ SubscribeAckReason.GrantedQos1 ≠ SubscribeAckReason.UnspecifiedError :=
  ⟨rfl, by decide⟩

/-- Claim C3, amended: whenever either argument of `v5_merge` is outside the
granted-QoS set the result is the second argument (`merged`); when both are
granted, GrantedQos0 dominates, then GrantedQos1, then GrantedQos2. -/
theorem c3_v5_merge_characterization (status merged : SubscribeAckReason) :
    SubscribeAck.v5_merge status merged = v5_merge_amended status merged := by
  cases status <;> cases merged <;> rfl

/-- Claim C4: refuted (code bug) — registering a plugin with
`default_startup = false` and then starting it (both plugin calls succeeding)
reaches a Manager state whose stored entry has `active = true` but
`inited = false`, because `Manager::start` calls `plugin.init()` without ever
setting the `inited` flag. -/
theorem c4_start_leaves_inited_false :
    (mlookup (Manager.start
        (Manager.register ⟨[]⟩ ⟨"p", none, none, Except.ok true⟩ false).2 "p").2.plugins
        "p").map (fun e => (e.inited, e.active))
      = some (false, true) := rfl

/-- Claim C5: `adjust_topic_filters` on a Subscribe or Unsubscribe whose entry
count differs from the replacement list's length returns the
length-mismatch error (`MqttError::ServiceUnavailable`, the spec's
`FilterCountMismatch`) and leaves the original value completely unchanged. -/
theorem c5_adjust_topic_filters_mismatch_atomic (s : Subscribe) (u : Unsubscribe)
    (tfs utfs : List String)
    (hs : s.len ≠ tfs.length) (hu : u.len ≠ utfs.length) :
    Subscribe.adjust_topic_filters s tfs
        = some (Except.error MqttError.ServiceUnavailable, s)
      ∧ Unsubscribe.adjust_topic_filters u utfs
        = some (Except.error MqttError.ServiceUnavailable, u) := by
  constructor
  · simp only [Subscribe.adjust_topic_filters]
    exact if_pos hs
  · simp only [Unsubscribe.adjust_topic_filters]
    exact if_pos hu

/-- Witness for C5 at a concrete mismatched input. -/
theorem c5_adjust_topic_filters_mismatch_atomic_witness :
    Subscribe.adjust_topic_filters (Subscribe.V3 [("a", QoS.AtMostOnce)]) []
        = some (Except.error MqttError.ServiceUnavailable,
                Subscribe.V3 [("a", QoS.AtMostOnce)])
      ∧ Unsubscribe.adjust_topic_filters (Unsubscribe.V3 ["a"]) ["b", "c"]
        = some (Except.error MqttError.ServiceUnavailable, Unsubscribe.V3 ["a"]) :=
  c5_adjust_topic_filters_mismatch_atomic _ _ _ _ (by decide) (by decide)

/-- Claim C6: the plugin Manager contract — after a successful
`register(p, default_startup = false)` the module is not active; a subsequent
`start` (plugin init and start succeeding) succeeds and makes it active;
`stop` on the never-started module fails with the not-active error; `start`
and `stop` on an unregistered name fail with the not-found error; and
`is_active` is non-failing and false for unknown names. -/
theorem c6_manager_contract (m0 : Manager) (p : Plugin) (other : String)
    (h1 : p.init_res = none) (h2 : p.start_res = none)
    (hreg : (Manager.register m0 p false).1 = Except.ok ())
    (hother : mlookup m0.plugins other = none) :
    Manager.is_active (Manager.register m0 p false).2 p.name = false
      ∧ (Manager.start (Manager.register m0 p false).2 p.name).1 = Except.ok ()
      ∧ Manager.is_active (Manager.start (Manager.register m0 p false).2 p.name).2 p.name
          = true
      ∧ (Manager.stop (Manager.register m0 p false).2 p.name).1
          = Except.error (MqttError.Error (p.name ++ " the plug-in is not started"))
      ∧ (Manager.start m0 other).1
          = Except.error (MqttError.Error (other ++ " the plug-in does not exist"))
      ∧ (Manager.stop m0 other).1
          = Except.error (MqttError.Error (other ++ " the plug-in does not exist"))
      ∧ Manager.is_active m0 other = false := by
  have hm1 := register_false_ok_state m0 p hreg
  rw [hm1]
  refine ⟨?_, ?_, ?_, ?_, ?_, ?_, ?_⟩
  · simp [Manager.is_active, mlookup_minsert_self]
  · simp [Manager.start, mlookup_minsert_self, h1, Manager.start_active_phase, h2]
  · simp [Manager.start, mlookup_minsert_self, h1, Manager.start_active_phase, h2,
      Manager.is_active]
  · simp [Manager.stop, mlookup_minsert_self]
  · simp [Manager.start, hother]
  · simp [Manager.stop, hother]
  · simp [Manager.is_active, hother]

/-- Witness for C6: the empty manager, an all-succeeding plugin named `p`, and
the unknown name `q`. -/
theorem c6_manager_contract_witness :
    Manager.is_active
        (Manager.register ⟨[]⟩ ⟨"p", none, none, Except.ok true⟩ false).2 "p" = false
      ∧ (Manager.start
          (Manager.register ⟨[]⟩ ⟨"p", none, none, Except.ok true⟩ false).2 "p").1
          = Except.ok ()
      ∧ Manager.is_active
          (Manager.start
            (Manager.register ⟨[]⟩ ⟨"p", none, none, Except.ok true⟩ false).2 "p").2 "p"
          = true
      ∧ (Manager.stop
          (Manager.register ⟨[]⟩ ⟨"p", none, none, Except.ok true⟩ false).2 "p").1
          = Except.error (MqttError.Error ("p" ++ " the plug-in is not started"))
      ∧ (Manager.start (⟨[]⟩ : Manager) "q").1
          = Except.error (MqttError.Error ("q" ++ " the plug-in does not exist"))
      ∧ (Manager.stop (⟨[]⟩ : Manager) "q").1
          = Except.error (MqttError.Error ("q" ++ " the plug-in does not exist"))
      ∧ Manager.is_active (⟨[]⟩ : Manager) "q" = false :=
  c6_manager_contract ⟨[]⟩ ⟨"p", none, none, Except.ok true⟩ "q" rfl rfl rfl rfl

/-- Claim C7: `Id` equality and hashing ignore the username — two identities
built from the same node id, local address, remote address and client id but
arbitrary usernames compare equal and feed identical data to the hasher; and
in general the equality test is exactly equality of the derived display
strings. -/
theorem c7_id_eq_ignores_username (n : Nat) (l r c : String) (u1 u2 : Option String)
    (a b : Id) :
    Id.eq (Id.new n l r c u1) (Id.new n l r c u2) = true
      ∧ Id.hash_input (Id.new n l r c u1) = Id.hash_input (Id.new n l r c u2)
      ∧ Id.eq a b = (a.id == b.id) := by
  refine ⟨?_, rfl, rfl⟩
  simp [Id.eq, Id.new]

/-- Claim C8, counterexample: the claim says the `node` key's value equals the
source `node_id` field, but for `Id::new(1, "a", "b", "c", None)` the `node`
value is the derived string `"1/a"` — neither the number 1 nor its string
form. -/
theorem c8_node_value_is_not_node_id :
    List.lookup "node" (Id.to_json (Id.new 1 "a" "b" "c" none))
        = some (JsonValue.str "1/a")
      ∧ JsonValue.str "1/a" ≠ JsonValue.num 1
      ∧ JsonValue.str "1/a" ≠ JsonValue.str "1" :=
  ⟨by decide, by decide, by decide⟩

/-- Claim C8, amended: `Id::to_json` produces exactly the four keys `node`,
`ipaddress`, `clientid`, `username`; `ipaddress`, `clientid` and `username`
hold the source fields (username defaulting to `"undefined"`), while `node`
holds the derived `"{node_id}/{local_addr}"` string, not the raw node id. -/
theorem c8_to_json_projection (n : Nat) (l r c : String) (u : Option String) :
    Id.to_json (Id.new n l r c u)
      = [("node", JsonValue.str (toString n ++ "/" ++ l)),
         ("ipaddress", JsonValue.str r),
         ("clientid", JsonValue.str c),
         ("username", JsonValue.str (u.getD "undefined"))] := rfl

/-- Claim C9: merging a V3 ack with a V5 ack (in either order) is an absorbed
no-op — `merge_from` returns normally (no panic, no propagated error) and the
receiving ack is completely unchanged. -/
theorem c9_cross_variant_merge_is_noop (codes : List SubscribeReturnCodeV3)
    (acks : SubscribeAckV5) :
    SubscribeAck.merge_from (SubscribeAck.V3 codes) (SubscribeAck.V5 acks)
        = some (SubscribeAck.V3 codes)
      ∧ SubscribeAck.merge_from (SubscribeAck.V5 acks) (SubscribeAck.V3 codes)
        = some (SubscribeAck.V5 acks) :=
  ⟨rfl, rfl⟩

/-- Claim C10: `set_packet_id(0)` clears the packet id (`packet_id()` is
`None` and `packet_id_is_none()` is true) on both Publish variants, and
`set_packet_id(n)` for any valid nonzero `u16` value stores `Some(n)`. -/
theorem c10_packet_id_zero_clears (p : Publish) (n : Nat)
    (h1 : 1 ≤ n) (h2 : n ≤ 65535) :
    (p.set_packet_id 0).packet_id = none
      ∧ (p.set_packet_id 0).packet_id_is_none = true
      ∧ (p.set_packet_id n).packet_id = some n := by
  have hn : n ≠ 0 := by omega
  cases p <;>
    simp [Publish.set_packet_id, Publish.packet_id, Publish.packet_id_is_none,
      nonzero_u16_new, hn]

/-- Witness for C10 on a concrete V3 publish and `n = 5`. -/
theorem c10_packet_id_zero_clears_witness :
    ((Publish.V3 ⟨⟨false, false, QoS.AtMostOnce, "t", none, ""⟩, "t", none, 0⟩).set_packet_id
        0).packet_id = none
      ∧ ((Publish.V3 ⟨⟨false, false, QoS.AtMostOnce, "t", none, ""⟩, "t", none,
          0⟩).set_packet_id 0).packet_id_is_none = true
      ∧ ((Publish.V3 ⟨⟨false, false, QoS.AtMostOnce, "t", none, ""⟩, "t", none,
          0⟩).set_packet_id 5).packet_id = some 5 :=
  c10_packet_id_zero_clears _ 5 (by decide) (by decide)

end Rmqtt
